import Mathlib

/-!
Verification development for the `rir` watch-and-retest tool.

The program watches configured directories; on a filesystem change event it
classifies the changed path against three per-directory glob patterns
(test files, template files, screenshot files) and dispatches a retest or a
reload action.  The dispatcher, the matcher and the action runners are
embedded below as pure Lean functions, translated from `main.go` and from
the Go standard-library functions it calls (`path/filepath.Match`,
`path/filepath.Join`, `path/filepath.Clean`, Unix build, separator `/`).

Strings are modelled as `List Char`; the repository only ever feeds ASCII
patterns and paths, where Go's byte/rune handling coincides with
per-character handling.  Loops whose measure is not structural carry a fuel
argument; every caller passes fuel that provably dominates the loop's
iteration count (each iteration consumes at least one input character), so
the out-of-fuel branches are unreachable.
-/

namespace Rir

/-- Path separator, `filepath.Separator` on Unix. -/
def sep : Char := '/'

/-- Go strings, viewed character by character. -/
abbrev Chars := List Char

/-- The one error `filepath.Match` can produce: `filepath.ErrBadPattern`. -/
inductive MatchErr where
  | badPattern
deriving DecidableEq, Repr

/-- The leading-star part of `scanChunk`: strip the `*`s that precede the
chunk, reporting whether there was at least one. -/
def stripStars : Chars → Bool × Chars
  | '*' :: cs => (true, (stripStars cs).2)
  | cs => (false, cs)

/-- The scanning loop of `scanChunk`: split the pattern at the first `*`
that is not inside a `[...]` range, skipping `\`-escaped characters. -/
def scanBody : Chars → Bool → Chars × Chars
  | [], _ => ([], [])
  | '\\' :: c :: cs, inrange =>
      let r := scanBody cs inrange
      ('\\' :: c :: r.1, r.2)
  | ['\\'], _ => (['\\'], [])
  | '[' :: cs, _ =>
      let r := scanBody cs true
      ('[' :: r.1, r.2)
  | ']' :: cs, _ =>
      let r := scanBody cs false
      (']' :: r.1, r.2)
  | '*' :: cs, inrange =>
      if inrange then
        let r := scanBody cs inrange
        ('*' :: r.1, r.2)
      else ([], '*' :: cs)
  | c :: cs, inrange =>
      let r := scanBody cs inrange
      (c :: r.1, r.2)

/-- Go's `scanChunk`: result is (was there a leading star, next chunk, rest of
pattern), as in Go's `scanChunk`. -/
def scanChunk (pattern : Chars) : Bool × Chars × Chars :=
  let s := stripStars pattern
  let r := scanBody s.2 false
  (s.1, r.1, r.2)

/-- Go's `getEsc`: read one possibly-escaped character of a `[...]` range.
Errors if the chunk is empty, starts with `-` or `]`, has a trailing
escape, or would leave the range unterminated. -/
def getEsc (chunk : Chars) : Except MatchErr (Char × Chars) :=
  match chunk with
  | [] => .error .badPattern
  | c :: cs =>
    if c = '-' ∨ c = ']' then .error .badPattern
    else if c = '\\' then
      match cs with
      | [] => .error .badPattern
      | r :: rest => if rest = [] then .error .badPattern else .ok (r, rest)
    else if cs = [] then .error .badPattern else .ok (c, cs)

/-- The range-parsing loop inside `matchChunk`'s `[` case: parse `lo-hi`
ranges until the closing `]`, recording whether the rune `r` fell in any
range.  Fuel dominates the chunk length. -/
def rangeLoop (r : Char) : Nat → Bool → Nat → Chars → Except MatchErr (Bool × Chars)
  | 0, _, _, _ => .error .badPattern
  | fuel + 1, matched, nrange, chunk =>
    if chunk.head? = some ']' ∧ nrange > 0 then .ok (matched, chunk.tail)
    else
      match getEsc chunk with
      | .error e => .error e
      | .ok (lo, chunk1) =>
        match chunk1 with
        | [] => .error .badPattern
        | d :: chunk1' =>
          if d = '-' then
            match getEsc chunk1' with
            | .error e => .error e
            | .ok (hi, chunk2) =>
                rangeLoop r fuel (matched || (decide (lo ≤ r) && decide (r ≤ hi)))
                  (nrange + 1) chunk2
          else
            rangeLoop r fuel (matched || (decide (lo ≤ r) && decide (r ≤ lo)))
              (nrange + 1) chunk1

/-- Go's `matchChunk` main loop.  `failed` records a mismatch that has been
seen but must not stop the scan (pattern errors later in the chunk still
surface).  Result: `.ok (some rest)` = matched with `rest` of the name
left, `.ok none` = no match, no error.  Fuel dominates the chunk length. -/
def matchChunkLoop : Nat → Chars → Chars → Bool → Except MatchErr (Option Chars)
  | 0, _, _, _ => .error .badPattern
  | _ + 1, [], s, failed => if failed then .ok none else .ok (some s)
  | fuel + 1, c :: chunk', s, failed0 =>
    let failed := failed0 || s.isEmpty
    if c = '[' then
      let r := if failed then Char.ofNat 0 else s.headD (Char.ofNat 0)
      let s' := if failed then s else s.tail
      let neg : Bool × Chars :=
        match chunk' with
        | '^' :: rest => (true, rest)
        | _ => (false, chunk')
      match rangeLoop r (neg.2.length + 1) false 0 neg.2 with
      | .error e => .error e
      | .ok (m, chunkB) => matchChunkLoop fuel chunkB s' (failed || (m == neg.1))
    else if c = '?' then
      if failed then matchChunkLoop fuel chunk' s true
      else matchChunkLoop fuel chunk' s.tail (decide (s.headD sep = sep))
    else if c = '\\' then
      match chunk' with
      | [] => .error .badPattern
      | e :: chunk'' =>
        if failed then matchChunkLoop fuel chunk'' s true
        else matchChunkLoop fuel chunk'' s.tail (decide (e ≠ s.headD e))
    else
      if failed then matchChunkLoop fuel chunk' s true
      else matchChunkLoop fuel chunk' s.tail (decide (c ≠ s.headD c))

/-- Go's `matchChunk chunk s`: try to match `chunk` against a prefix of
`s`, returning the remainder of `s` on success. -/
def matchChunk (chunk s : Chars) : Except MatchErr (Option Chars) :=
  matchChunkLoop (chunk.length + 1) chunk s false

/-- The inner star loop of `Match`: after a `*`, retry `chunk` at every
position of `name` up to (not across) the next separator.  `pattern` is
the pattern left after the chunk; when it is empty a successful chunk
match must also exhaust the name, else the loop keeps advancing.
Returns the remaining name on success, `none` when the loop runs out. -/
def starLoop (chunk pattern : Chars) : Chars → Except MatchErr (Option Chars)
  | [] => .ok none
  | c :: cs =>
      if c = sep then .ok none
      else
        match matchChunk chunk cs with
        | .error e => .error e
        | .ok (some t) =>
            if pattern = [] ∧ t ≠ [] then starLoop chunk pattern cs
            else .ok (some t)
        | .ok none => starLoop chunk pattern cs

/-- The final loop of `Match` before returning `false`: check that the
remainder of the pattern could match the empty string, so that a bad
pattern still reports `ErrBadPattern`.  Fuel dominates pattern length. -/
def emptyChk : Nat → Chars → Except MatchErr Unit
  | 0, _ => .error .badPattern
  | _ + 1, [] => .ok ()
  | fuel + 1, p :: ps =>
    let sc := scanChunk (p :: ps)
    match matchChunk sc.2.1 [] with
    | .error e => .error e
    | .ok _ => emptyChk fuel sc.2.2

/-- The main `Pattern:` loop of Go's `filepath.Match`.  Fuel dominates
pattern length (every iteration consumes at least one pattern char). -/
def matchLoop : Nat → Chars → Chars → Except MatchErr Bool
  | 0, _, _ => .error .badPattern
  | _ + 1, [], name => .ok (decide (name = []))
  | fuel + 1, p :: ps, name =>
    let sc := scanChunk (p :: ps)
    let star := sc.1
    let chunk := sc.2.1
    let rest := sc.2.2
    if star ∧ chunk = [] then
      -- trailing '*' matches the rest of the name unless it has a separator
      .ok (!(name.contains sep))
    else
      match matchChunk chunk name with
      | .error e => .error e
      | .ok (some t) =>
          if t = [] ∨ rest ≠ [] then matchLoop fuel rest t
          else if star then
            match starLoop chunk rest name with
            | .error e => .error e
            | .ok (some t') => matchLoop fuel rest t'
            | .ok none => (emptyChk (rest.length + 1) rest).map (fun _ => false)
          else (emptyChk (rest.length + 1) rest).map (fun _ => false)
      | .ok none =>
          if star then
            match starLoop chunk rest name with
            | .error e => .error e
            | .ok (some t') => matchLoop fuel rest t'
            | .ok none => (emptyChk (rest.length + 1) rest).map (fun _ => false)
          else (emptyChk (rest.length + 1) rest).map (fun _ => false)

/-- Go's `filepath.Match(pattern, name)`: `.ok matched` or
`.error ErrBadPattern`. -/
def goMatch (pattern name : String) : Except MatchErr Bool :=
  matchLoop (pattern.toList.length + 1) pattern.toList name.toList

/-- The way `watch` consumes `filepath.Match`: `m, _ := filepath.Match(...)`
discards the error, and Go returns `false` together with an error, so a
bad pattern behaves as a non-match. -/
def matchBool (pattern name : String) : Bool :=
  match goMatch pattern name with
  | .ok b => b
  | .error _ => false

/-- The backtracking step of `Clean`'s `..` handling: starting from write
index `w` (already decremented once), move left while above `dotdot` and
not on a separator.  Structural on `w`. -/
def backtrackW (buf : Chars) (dotdot : Nat) : Nat → Nat
  | 0 => 0
  | w + 1 =>
      if w + 1 > dotdot ∧ buf.getD (w + 1) sep ≠ sep then backtrackW buf dotdot w
      else w + 1

/-- The main loop of Go's `filepath.Clean` (Unix: no volume names), with
the lazy output buffer modelled as the list of characters written so far.
`rooted` is whether the original path began with a separator; `dotdot`
marks the point the output cannot backtrack past.  Fuel dominates the
length of the unread input. -/
def cleanLoop (rooted : Bool) : Nat → Chars → Chars → Nat → Chars
  | 0, _, out, _ => out
  | _ + 1, [], out, _ => out
  | fuel + 1, c :: cs, out, dotdot =>
    if c = sep then
      -- empty path element
      cleanLoop rooted fuel cs out dotdot
    else if c = '.' ∧ (cs = [] ∨ cs.head? = some sep) then
      -- . element
      cleanLoop rooted fuel cs out dotdot
    else if c = '.' ∧ cs.head? = some '.' ∧ (cs.tail = [] ∨ cs.tail.head? = some sep) then
      -- .. element: backtrack to the last separator if possible
      if out.length > dotdot then
        let w := backtrackW out dotdot (out.length - 1)
        cleanLoop rooted fuel cs.tail (out.take w) dotdot
      else if ¬ rooted then
        let out' := (if out.length > 0 then out ++ [sep] else out) ++ ['.', '.']
        cleanLoop rooted fuel cs.tail out' out'.length
      else
        cleanLoop rooted fuel cs.tail out dotdot
    else
      -- real path element: add a separator if needed, then copy it
      let out' := if (rooted ∧ out.length ≠ 1) ∨ (¬ rooted ∧ out.length ≠ 0)
                  then out ++ [sep] else out
      let elemChars := (c :: cs).takeWhile (· ≠ sep)
      let rest := (c :: cs).dropWhile (· ≠ sep)
      cleanLoop rooted fuel rest (out' ++ elemChars) dotdot

/-- Go's `filepath.Clean` (Unix). -/
def goClean (path : String) : String :=
  match path.toList with
  | [] => "."
  | c :: cs =>
    let rooted := c = sep
    let out :=
      if rooted then cleanLoop true (cs.length + 1) cs [sep] 1
      else cleanLoop false (cs.length + 2) (c :: cs) [] 0
    if out.length = 0 then "." else ⟨out⟩

/-- Go's `filepath.Join` restricted to two elements, as `watch` calls it:
skip leading empty elements, join with the separator, `Clean` the result. -/
def goJoin (a b : String) : String :=
  if a ≠ "" then goClean (a ++ "/" ++ b)
  else if b ≠ "" then goClean b
  else ""

/-! ## The program model (`main.go`) -/

/-- Struct `Dir`: configures a single watched directory. -/
structure Dir where
  Path : String
  TemplateFilePattern : String
  TestFilePattern : String
  ScreenshotFilePattern : String
  TestCommand : List String
deriving DecidableEq, Repr

/-- Struct `Config`: configures rir; the listen address plays no
role in the watch subsystem. -/
structure Config where
  ListenAddr : String
  Dirs : List Dir
deriving DecidableEq, Repr

/-- The two downstream actions the dispatcher can trigger. -/
inductive ActionKind where
  | Retest
  | Reload
deriving DecidableEq, Repr

/-- The per-directory body of the event loop in `watch`
(`main.go:92-98`): an if / else-if / else-if chain over the three joined
glob patterns, each consulted through `m, _ := filepath.Match(...)`.
Produces the list of actions dispatched for this directory. -/
def classify (wdir : Dir) (path : String) : List ActionKind :=
  if matchBool (goJoin wdir.Path wdir.TestFilePattern) path then [.Retest]
  else if matchBool (goJoin wdir.Path wdir.TemplateFilePattern) path then [.Retest]
  else if matchBool (goJoin wdir.Path wdir.ScreenshotFilePattern) path then [.Reload]
  else []

/-- Whether the changed path matches the directory's joined test-file glob
(as the code consults it, errors discarded). -/
def matchesTest (wdir : Dir) (path : String) : Bool :=
  matchBool (goJoin wdir.Path wdir.TestFilePattern) path

/-- Whether the changed path matches the directory's joined template-file
glob (as the code consults it, errors discarded). -/
def matchesTemplate (wdir : Dir) (path : String) : Bool :=
  matchBool (goJoin wdir.Path wdir.TemplateFilePattern) path

/-- Whether the changed path matches the directory's joined
screenshot-file glob (as the code consults it, errors discarded). -/
def matchesScreenshot (wdir : Dir) (path : String) : Bool :=
  matchBool (goJoin wdir.Path wdir.ScreenshotFilePattern) path

/-- fsnotify operation kinds, as the spec's closed set; `watch` only ever
compares the operation against `fsnotify.Chmod`. -/
inductive FsOp where
  | Create
  | Write
  | Remove
  | Rename
  | Chmod
  | Other
deriving DecidableEq, Repr

/-- A filesystem change event (`fsnotify.Event`): changed path and
operation. -/
structure Event where
  Name : String
  Op : FsOp
deriving DecidableEq, Repr

/-- What one delivery of the `select` in `watch` can be: a value or a
closure on either channel, serialised into one trace. -/
inductive Msg where
  | fsEvent (ev : Event)
  | eventsClosed
  | fsError (err : String)
  | errorsClosed
deriving DecidableEq, Repr

/-- A structured error-level log record: message plus attached error. -/
structure ErrLog where
  msg : String
  err : String
deriving DecidableEq, Repr

/-- The observable outcome of running the dispatcher loop on a trace:
the dispatched `(directory, action)` pairs in order, the error-level log
records the loop itself emitted, and whether the loop returned. -/
structure WatchTrace where
  actions : List (Dir × ActionKind)
  errLogs : List ErrLog
  terminated : Bool
deriving DecidableEq, Repr

/-- The actions dispatched for one received event (`main.go:86-99`):
a pure-`Chmod` event is skipped before any matching; otherwise every
configured directory is classified in order. -/
def eventActions (cfg : Config) (ev : Event) : List (Dir × ActionKind) :=
  if ev.Op = FsOp.Chmod then []
  else cfg.Dirs.flatMap (fun wdir => (classify wdir ev.Name).map (fun k => (wdir, k)))

/-- The dispatcher loop of `watch` (`main.go:79-109`) over a serialised
trace of channel deliveries.  Receiving a closed events channel or a
closed errors channel makes the loop return (each after one error log);
an error value is logged and the loop continues; an event contributes its
dispatched actions.  An unfinished trace leaves the loop listening. -/
def watchRun (cfg : Config) : List Msg → WatchTrace
  | [] => ⟨[], [], false⟩
  | .eventsClosed :: _ => ⟨[], [⟨"failed to read next event, stopping", ""⟩], true⟩
  | .errorsClosed :: _ => ⟨[], [⟨"watcher error, stopping", ""⟩], true⟩
  | .fsEvent ev :: rest =>
      let t := watchRun cfg rest
      ⟨eventActions cfg ev ++ t.actions, t.errLogs, t.terminated⟩
  | .fsError e :: rest =>
      let t := watchRun cfg rest
      ⟨t.actions, ⟨"fsnotify error", e⟩ :: t.errLogs, t.terminated⟩

/-! ## Action runners (`retest`, `do`, `reload`) -/

/-- The outcome of `exec.Cmd.Run` for a given argv, supplied as an oracle:
`failure` covers both a failure to start and a non-zero exit. -/
inductive CmdResult where
  | success
  | failure (msg : String)
deriving DecidableEq, Repr

/-- An environment binding each argv to what running it does. -/
abbrev CmdOracle := List String → CmdResult

/-- How a dispatched task ends: a normal `nil` return, an error return, or
a Go runtime panic. -/
inductive RunOutcome where
  | ok
  | failed (err : String)
  | panicked (msg : String)
deriving DecidableEq, Repr

/-- Function `retest` (`main.go:42-53`): builds
`exec.Command(wdir.TestCommand[0], wdir.TestCommand[1:]...)` — the index
expression panics when the slice is empty — runs it, and wraps a failure
in `fmt.Errorf("failed to run test command: %w", err)`. -/
def retest (runCmd : CmdOracle) (wdir : Dir) : RunOutcome :=
  match wdir.TestCommand with
  | [] => .panicked "runtime error: index out of range [0] with length 0"
  | c0 :: args =>
    match runCmd (c0 :: args) with
    | .failure e => .failed ("failed to run test command: " ++ e)
    | .success => .ok

/-- Function `reload` (`main.go:65-69`): force-refreshes the livereload hub and
returns `nil` unconditionally. -/
def reload (_wdir : Dir) : RunOutcome := .ok

/-- The error-level log records `do` (`main.go:56-62`) emits for one task
outcome: exactly one when the task returned an error, none otherwise (a
goroutine panic is not caught by `do`). -/
def doLogs (m : String) : RunOutcome → List ErrLog
  | .failed e => [⟨m, e⟩]
  | _ => []

/-- The outcome of one dispatched action under a command oracle. -/
def actionOutcome (runCmd : CmdOracle) : Dir × ActionKind → RunOutcome
  | (wdir, .Retest) => retest runCmd wdir
  | (wdir, .Reload) => reload wdir

/-- The `do`-message used for each action kind at the dispatch sites. -/
def actionMsg : ActionKind → String
  | .Retest => "failed to test"
  | .Reload => "failed to reload"

/-- The task-boundary logs of all actions of a dispatcher trace. -/
def taskLogs (runCmd : CmdOracle) (t : WatchTrace) : List ErrLog :=
  t.actions.flatMap (fun a => doLogs (actionMsg a.2) (actionOutcome runCmd a))

/-- The whole watch subsystem under a command oracle: the dispatcher trace
together with the task-boundary logs of the actions it fanned out. -/
def systemRun (runCmd : CmdOracle) (cfg : Config) (msgs : List Msg) :
    WatchTrace × List ErrLog :=
  let t := watchRun cfg msgs
  (t, taskLogs runCmd t)

/-! ## Concrete configurations used by the theorems -/

/-- The directory of spec §8's worked example (also claim C5). -/
def exampleDir : Dir :=
  ⟨"/proj", "*.gotmpl", "*_test.go", "*.screenshot.jpeg", ["go", "test", "./..."]⟩

/-- A one-directory configuration around `exampleDir`. -/
def exampleCfg : Config := ⟨":8334", [exampleDir]⟩

/-- A directory whose test pattern and screenshot pattern both match the
same paths (overlapping categories). -/
def overlapDir : Dir := ⟨"/p", "none.txt", "*.go", "*.go", ["go", "test"]⟩

/-- A directory whose screenshot pattern is a malformed glob (`[`). -/
def badPatternDir : Dir := ⟨"/p", "*.gotmpl", "*_test.go", "[", ["go", "test"]⟩

/-! ## Claims -/

/-- C1 (counterexample): classification is NOT set-valued over the
patterns.  For `overlapDir` the path `/p/a.go` matches both the test-file
pattern and the screenshot pattern, yet the dispatch chain produces only
`{Retest}` — not `{Retest, Reload}` as the claim states — because `watch`
checks the three patterns in an if / else-if / else-if chain and stops at
the first match. -/
theorem classify_overlap_counterexample :
    matchesTest overlapDir "/p/a.go" = true ∧
    matchesScreenshot overlapDir "/p/a.go" = true ∧
    classify overlapDir "/p/a.go" = [ActionKind.Retest] := by
  refine ⟨?_, ?_, ?_⟩ <;> rfl

/-- C1 (amended): classification is first-match-wins over the chain
test-pattern, template-pattern, screenshot-pattern, producing at most one
action per directory: a path matching the test or the template pattern
produces exactly `{Retest}` (even when the screenshot pattern also
matches); a path matching only the screenshot pattern produces exactly
`{Reload}`; a path matching no pattern produces nothing. -/
theorem classify_cases (wdir : Dir) (path : String) :
    ((matchesTest wdir path = true ∨ matchesTemplate wdir path = true) →
        classify wdir path = [ActionKind.Retest]) ∧
    ((matchesTest wdir path = false ∧ matchesTemplate wdir path = false ∧
        matchesScreenshot wdir path = true) →
        classify wdir path = [ActionKind.Reload]) ∧
    ((matchesTest wdir path = false ∧ matchesTemplate wdir path = false ∧
        matchesScreenshot wdir path = false) →
        classify wdir path = []) := by
  unfold classify matchesTest matchesTemplate matchesScreenshot
  cases h1 : matchBool (goJoin wdir.Path wdir.TestFilePattern) path <;>
    cases h2 : matchBool (goJoin wdir.Path wdir.TemplateFilePattern) path <;>
      cases h3 : matchBool (goJoin wdir.Path wdir.ScreenshotFilePattern) path <;>
        simp [h1, h2, h3]

/-- C1 (witness): the amended case split evaluated on a concrete input. -/
theorem classify_cases_witness :
    classify exampleDir "/proj/foo_test.go" = [ActionKind.Retest] :=
  (classify_cases exampleDir "/proj/foo_test.go").1 (Or.inl (by rfl))

/-- C2: a `Chmod` event produces no action for any configured directory —
it is skipped by the `continue` at `main.go:86-88` before any pattern
matching — and contributes nothing at all to the dispatcher trace. -/
theorem chmod_no_action (cfg : Config) (ev : Event) (rest : List Msg)
    (h : ev.Op = FsOp.Chmod) :
    eventActions cfg ev = [] ∧
    watchRun cfg (.fsEvent ev :: rest) = watchRun cfg rest := by
  constructor
  · simp [eventActions, h]
  · simp [watchRun, eventActions, h]

/-- C2 (witness): the Chmod discard evaluated on a concrete event. -/
theorem chmod_no_action_witness :
    eventActions exampleCfg ⟨"/proj/foo_test.go", FsOp.Chmod⟩ = [] :=
  (chmod_no_action exampleCfg ⟨"/proj/foo_test.go", FsOp.Chmod⟩ [] rfl).1

/-- C3 (counterexample): closure of the error stream ALONE terminates the
dispatcher loop.  On the trace [errors channel closes, event arrives] the
loop returns at the closure (`main.go:103-106` is `if !ok { return }` on
`w.Errors`) and the subsequent event — one that would have produced a
retest — is never processed. -/
theorem errors_close_terminates_counterexample :
    (watchRun exampleCfg
        [Msg.errorsClosed, Msg.fsEvent ⟨"/proj/foo_test.go", FsOp.Write⟩]).terminated
      = true ∧
    (watchRun exampleCfg
        [Msg.errorsClosed, Msg.fsEvent ⟨"/proj/foo_test.go", FsOp.Write⟩]).actions
      = [] ∧
    eventActions exampleCfg ⟨"/proj/foo_test.go", FsOp.Write⟩
      = [(exampleDir, ActionKind.Retest)] := by
  refine ⟨rfl, rfl, rfl⟩

/-- C3 (amended): the dispatcher loop terminates exactly when one of its
two input streams closes — closing the event stream or closing the error
stream each makes the loop return — while an error value received on the
error stream is only logged and the loop keeps processing subsequent
messages. -/
theorem watch_termination (cfg : Config) :
    (∀ msgs : List Msg, (watchRun cfg msgs).terminated = true ↔
        (Msg.eventsClosed ∈ msgs ∨ Msg.errorsClosed ∈ msgs)) ∧
    (∀ (e : String) (rest : List Msg),
        (watchRun cfg (.fsError e :: rest)).actions = (watchRun cfg rest).actions ∧
        (watchRun cfg (.fsError e :: rest)).terminated = (watchRun cfg rest).terminated ∧
        (watchRun cfg (.fsError e :: rest)).errLogs
          = ⟨"fsnotify error", e⟩ :: (watchRun cfg rest).errLogs) := by
  constructor
  · intro msgs
    induction msgs with
    | nil => simp [watchRun]
    | cons m rest ih =>
      cases m with
      | fsEvent ev => simpa [watchRun] using ih
      | eventsClosed => simp [watchRun]
      | fsError e => simpa [watchRun] using ih
      | errorsClosed => simp [watchRun]
  · intro e rest
    refine ⟨rfl, rfl, rfl⟩

/-- C3 (witness): the amended termination condition evaluated on a
concrete trace. -/
theorem watch_termination_witness :
    (watchRun exampleCfg [Msg.errorsClosed]).terminated = true :=
  ((watch_termination exampleCfg).1 [Msg.errorsClosed]).mpr (Or.inr (by simp))

/-- C4: for a directory with a non-empty test command, `retest` returns an
error exactly when running the configured command fails (failure to start
or non-zero exit, both covered by the oracle's `failure`); a failed
dispatched retest is logged exactly once at the task boundary by `do`,
with the dispatch-site message and the wrapped error; a successful one
logs nothing; and the dispatcher trace — the actions dispatched, the
loop's own logs, its termination — is identical under any two command
oracles, so a test failure never propagates into the dispatcher loop or
affects the processing of subsequent events. -/
theorem retest_error_contract (runCmd : CmdOracle) (wdir : Dir)
    (hne : wdir.TestCommand ≠ []) :
    (retest runCmd wdir = RunOutcome.ok ↔ runCmd wdir.TestCommand = CmdResult.success) ∧
    (∀ e : String, runCmd wdir.TestCommand = CmdResult.failure e →
        doLogs (actionMsg .Retest) (retest runCmd wdir)
          = [⟨"failed to test", "failed to run test command: " ++ e⟩]) ∧
    (runCmd wdir.TestCommand = CmdResult.success →
        doLogs (actionMsg .Retest) (retest runCmd wdir) = []) ∧
    (∀ (runCmd' : CmdOracle) (cfg : Config) (msgs : List Msg),
        (systemRun runCmd cfg msgs).1 = (systemRun runCmd' cfg msgs).1) := by
  match hc : wdir.TestCommand with
  | [] => exact absurd hc hne
  | c0 :: args =>
    refine ⟨?_, ?_, ?_, ?_⟩
    · cases hr : runCmd (c0 :: args) <;> simp [retest, hc, hr]
    · intro e he
      simp [retest, hc, he, doLogs, actionMsg]
    · intro hs
      simp [retest, hc, hs, doLogs]
    · intro runCmd' cfg msgs
      rfl

/-- C4 (witness): the retest error contract evaluated at a concrete
oracle in which `go test ./...` exits with status 1. -/
theorem retest_error_contract_witness :
    doLogs (actionMsg .Retest)
        (retest (fun _ => CmdResult.failure "exit status 1") exampleDir)
      = [⟨"failed to test", "failed to run test command: exit status 1"⟩] :=
  (retest_error_contract (fun _ => CmdResult.failure "exit status 1") exampleDir
      (by simp [exampleDir])).2.1 "exit status 1" rfl

/-- C5: for the worked-example directory (path `/proj`, test pattern
`*_test.go`, template pattern `*.gotmpl`, screenshot pattern
`*.screenshot.jpeg`, test command `go test ./...`), a write event for
`/proj/foo_test.go` dispatches exactly one Retest for it, a write event
for `/proj/profile.screenshot.jpeg` dispatches exactly one Reload for it,
and a write event for `/proj/README.md` dispatches nothing. -/
theorem example_classification :
    eventActions exampleCfg ⟨"/proj/foo_test.go", FsOp.Write⟩
      = [(exampleDir, ActionKind.Retest)] ∧
    eventActions exampleCfg ⟨"/proj/profile.screenshot.jpeg", FsOp.Write⟩
      = [(exampleDir, ActionKind.Reload)] ∧
    eventActions exampleCfg ⟨"/proj/README.md", FsOp.Write⟩ = [] := by
  refine ⟨rfl, rfl, rfl⟩

/-- C6: each candidate pattern is the path-join of the directory path with
the configured pattern string, and matching is shell-style glob matching
anchored to the whole path: joining `/proj` with `*_test.go` yields
exactly `/proj/*_test.go`; the classifier consults exactly the joined
globs; a `*` matches precisely the runs of non-separator characters (so
it never crosses a `/`); matching is case-sensitive; and a path in a
nested subdirectory of the watched directory does not match, nor does a
path that merely contains the pattern as a suffix of a longer path. -/
theorem glob_semantics :
    goJoin "/proj" "*_test.go" = "/proj/*_test.go" ∧
    (∀ (wdir : Dir) (path : String),
        matchesTest wdir path = matchBool (goJoin wdir.Path wdir.TestFilePattern) path ∧
        matchesTemplate wdir path
          = matchBool (goJoin wdir.Path wdir.TemplateFilePattern) path ∧
        matchesScreenshot wdir path
          = matchBool (goJoin wdir.Path wdir.ScreenshotFilePattern) path) ∧
    (∀ s : String, matchBool "*" s = !(s.toList.contains sep)) ∧
    matchBool "/proj/*_test.go" "/proj/sub/foo_test.go" = false ∧
    classify exampleDir "/proj/sub/foo_test.go" = [] ∧
    matchBool "/proj/*_test.go" "/proj/foo_Test.go" = false ∧
    matchBool "/proj/*_test.go" "/proj/foo_test.go" = true ∧
    matchBool "/proj/*_test.go" "/prefix/proj/foo_test.go" = false := by
  refine ⟨rfl, fun wdir path => ⟨rfl, rfl, rfl⟩, fun s => rfl, rfl, rfl, rfl, rfl, rfl⟩

/-- C7: `reload` never fails — it force-refreshes the livereload hub and
returns `nil` for every directory. -/
theorem reload_never_fails : ∀ wdir : Dir, reload wdir = RunOutcome.ok :=
  fun _ => rfl

/-- C8: classification is deterministic and side-effect-free — it is a
pure function of the directory record and the path, so identical inputs
give identical action sets, and the result at any position of a sequence
of calls depends only on the input at that position, not on the other
calls or their order. -/
theorem classify_deterministic :
    (∀ (d d' : Dir) (p p' : String), d = d' → p = p' → classify d p = classify d' p') ∧
    (∀ (calls calls' : List (Dir × String)) (i : Nat),
        calls[i]? = calls'[i]? →
        (calls.map (fun c => classify c.1 c.2))[i]?
          = (calls'.map (fun c => classify c.1 c.2))[i]?) := by
  constructor
  · intro d d' p p' hd hp
    rw [hd, hp]
  · intro calls calls' i h
    simp [List.getElem?_map, h]

/-- C8 (witness): determinism evaluated at a concrete repeated call. -/
theorem classify_deterministic_witness :
    classify exampleDir "/proj/foo_test.go" = classify exampleDir "/proj/foo_test.go" :=
  classify_deterministic.1 exampleDir exampleDir "/proj/foo_test.go" "/proj/foo_test.go"
    rfl rfl

/-- C9: a malformed glob is silently treated as non-matching.  Whenever
`filepath.Match` reports an error, the discarded-error reading that
`watch` uses yields `false`; concretely, a directory whose screenshot
pattern is the malformed glob `[` produces a match error, classifies
every such path to no action, and the dispatcher trace for the event
carries no action and no log record — the error surfaces nowhere. -/
theorem bad_pattern_ignored :
    (∀ (pattern name : String) (e : MatchErr),
        goMatch pattern name = .error e → matchBool pattern name = false) ∧
    goMatch (goJoin badPatternDir.Path badPatternDir.ScreenshotFilePattern)
        "/p/profile.jpeg" = .error .badPattern ∧
    classify badPatternDir "/p/profile.jpeg" = [] ∧
    watchRun ⟨":8334", [badPatternDir]⟩ [.fsEvent ⟨"/p/profile.jpeg", FsOp.Write⟩]
      = ⟨[], [], false⟩ := by
  refine ⟨?_, rfl, rfl, rfl⟩
  intro pattern name e h
  simp [matchBool, h]

/-- C9 (witness): the discarded-error reading evaluated at a concrete
malformed pattern. -/
theorem bad_pattern_ignored_witness : matchBool "[" "q" = false :=
  bad_pattern_ignored.1 "[" "q" .badPattern rfl

/-- C10: `retest` reads `wdir.TestCommand[0]` unconditionally, so a
non-empty test command is an unstated precondition: with an empty
`TestCommand` the index expression panics (a Go runtime panic, not a
returned error), and with a non-empty one no panic is possible. -/
theorem retest_empty_command_panics (runCmd : CmdOracle) (wdir : Dir) :
    (wdir.TestCommand = [] →
        retest runCmd wdir
          = RunOutcome.panicked "runtime error: index out of range [0] with length 0") ∧
    (wdir.TestCommand ≠ [] → ∀ s, retest runCmd wdir ≠ RunOutcome.panicked s) := by
  constructor
  · intro h
    simp [retest, h]
  · intro h s
    match hc : wdir.TestCommand with
    | [] => exact absurd hc h
    | c0 :: args =>
      cases hr : runCmd (c0 :: args) <;> simp [retest, hc, hr]

/-- C10 (witness): the empty-command panic evaluated at a concrete
directory record. -/
theorem retest_empty_command_panics_witness :
    retest (fun _ => CmdResult.success) ⟨"/p", "a", "b", "c", []⟩
      = RunOutcome.panicked "runtime error: index out of range [0] with length 0" :=
  (retest_empty_command_panics (fun _ => CmdResult.success) ⟨"/p", "a", "b", "c", []⟩).1 rfl

end Rir
